import Mathlib

/-!
Shallow embedding of the taxdash W-2 tax-assistant application (`src/app.py`).

Python floats are modelled as exact rationals (`ℚ`); Python dictionaries of
extracted W-2 fields as association lists keyed by `String`; Python's dynamic
values (the entries of the extraction result) as the inductive `PyVal`.
Exceptions are modelled with `Except String`; the external LLM transport
(`requests.post` plus response decoding) is modelled by the `LLMOutcome`
inductive enumerating its observable behaviours.
-/

namespace TaxDash

/-- Brace characters, written via their code points. -/
def lbrace : Char := Char.ofNat 123

def rbrace : Char := Char.ofNat 125

/-- A Python value as it can appear among the extracted W-2 fields:
a string, a number, a boolean, or `None`. -/
inductive PyVal where
  | str (s : String)
  | num (q : ℚ)
  | bool (b : Bool)
  | none
deriving DecidableEq, Repr

/-- The extracted-fields mapping (`data: dict` in `compute_tax_summary`). -/
def Fields : Type := List (String × PyVal)

/-- Python `data.get(k)` — `PyVal.none` when the key is absent. -/
def pyGet (d : Fields) (k : String) : PyVal :=
  ((List.find? (fun p => p.1 == k) d).map Prod.snd).getD PyVal.none

/-- Python `data.get(k, default)`. -/
def pyGetD (d : Fields) (k : String) (dflt : PyVal) : PyVal :=
  ((List.find? (fun p => p.1 == k) d).map Prod.snd).getD dflt

/-- Python truthiness test (`not data.get(f)` in the missing-field check):
`None`, the empty string, `0`, and `False` are falsy. -/
def falsy : PyVal → Bool
  | PyVal.none => true
  | PyVal.str s => s == ""
  | PyVal.num q => q == 0
  | PyVal.bool b => !b

/-- Python `str(value)` for the values `compute_tax_summary` passes through it.
Python renders integral floats with a trailing `.0`; non-integral float
rendering is abstracted as the rational's own representation (no claim
depends on it). -/
def pyStr : PyVal → String
  | PyVal.str s => s
  | PyVal.num q => if q.den = 1 then toString q.num ++ ".0" else toString q
  | PyVal.bool b => if b then "True" else "False"
  | PyVal.none => "None"

/-- Numeric value of a digit character. -/
def digitsVal (l : List Char) : ℕ :=
  List.foldl (fun a c => 10 * a + (c.toNat - 48)) 0 l

/-- CPython `float(s)` restricted to strings of ASCII digits and dots — the
only strings `safe_float` feeds it after cleaning.  Such a string parses
iff it has at most one dot and at least one digit; its value is the integer
part plus the fractional part. -/
def floatOfCleaned (l : List Char) : Option ℚ :=
  if List.count '.' l ≤ 1 && l.any (fun c => c.isDigit) then
    let ip := l.takeWhile (fun c => c != '.')
    let fp := (l.dropWhile (fun c => c != '.')).drop 1
    some ((digitsVal ip : ℚ) + (digitsVal fp : ℚ) / (10 : ℚ) ^ fp.length)
  else
    Option.none

/-- The character filter of `safe_float`:
`''.join(c for c in value if c.isdigit() or c == '.')`. -/
def cleanNumeric (s : String) : List Char :=
  s.data.filter (fun c => c.isDigit || c == '.')

/-- The helper `safe_float` (nested inside `compute_tax_summary`, src/app.py:102-113):
strings are cleaned to digits/dots then parsed with `float`, with `0.0` on
failure; other values go through `float(value)` with `0.0` on failure
(`float(None)` raises `TypeError`, `float(True) = 1.0`). -/
def safe_float : PyVal → ℚ
  | PyVal.str s => (floatOfCleaned (cleanNumeric s)).getD 0
  | PyVal.num q => q
  | PyVal.bool b => if b then 1 else 0
  | PyVal.none => 0

/-- Python `s.strip()`: remove leading and trailing whitespace. -/
def pyStrip (l : List Char) : List Char :=
  ((l.dropWhile Char.isWhitespace).reverse.dropWhile Char.isWhitespace).reverse

/-- One single-character replacement pass of `str.replace(pat, rep)`,
as used by `html.escape` (all its patterns are single characters). -/
def replaceChar (pat : Char) (rep : List Char) (l : List Char) : List Char :=
  List.flatMap l (fun c => if c = pat then rep else [c])

/-- Python `html.escape(s)` with `quote=True` (the default used at src/app.py:98):
sequentially replace `&`, `<`, `>`, `"`, `'`. -/
def html_escape (l : List Char) : List Char :=
  replaceChar '\x27' "&#x27;".data
    (replaceChar '"' "&quot;".data
      (replaceChar '>' "&gt;".data
        (replaceChar '<' "&lt;".data
          (replaceChar '&' "&amp;".data l))))

/-- The function `sanitize_string` (src/app.py:95-98): empty string for non-string input,
otherwise strip then HTML-escape. -/
def sanitize_string : PyVal → String
  | PyVal.str s => String.mk (html_escape (pyStrip s.data))
  | _ => ""

/-- Round-half-to-even to an integer, matching the tie policy of Python `round`. -/
def roundHalfEven (q : ℚ) : ℤ :=
  let f := ⌊q⌋
  if q - f < 1 / 2 then f
  else if 1 / 2 < q - f then f + 1
  else if f % 2 = 0 then f else f + 1

/-- Python `round(x, 2)`. -/
def roundTo2 (q : ℚ) : ℚ := (roundHalfEven (q * 100) : ℚ) / 100

/-- Charwise ASCII model of `filing_status.lower()`. -/
def pyLower (s : String) : String := String.mk (s.data.map Char.toLower)

/-- The standard-deduction lookup
`standard_deductions.get(filing_status.lower(), 13850)` (src/app.py:115-122). -/
def standardDeduction (status : String) : ℚ :=
  let k := pyLower status
  if k = "single" then 13850
  else if k = "married_filing_jointly" then 27700
  else if k = "married_filing_separately" then 13850
  else if k = "head_of_household" then 20800
  else 13850

/-- The four 2023 single-filer brackets (src/app.py:137-144). -/
def bracketTax (ti : ℚ) : ℚ :=
  if ti ≤ 11000 then ti * 0.10
  else if ti ≤ 44725 then 1100 + (ti - 11000) * 0.12
  else if ti ≤ 95375 then 5147 + (ti - 44725) * 0.22
  else 16290 + (ti - 95375) * 0.24

/-- Python `str.title()` on a character list: a letter is uppercased when the
previous character is not a letter, lowercased otherwise. -/
def pyTitle : List Char → Bool → List Char
  | [], _ => []
  | c :: rest, prevAlpha =>
      (if prevAlpha then c.toLower else c.toUpper) :: pyTitle rest c.isAlpha

/-- The expression `filing_status.replace("_", " ").title()` (src/app.py:154). -/
def formatStatus (status : String) : String :=
  String.mk (pyTitle (status.data.map (fun c => if c = '_' then ' ' else c)) false)

/-- The required-field list of src/app.py:125. -/
def requiredFields : List String :=
  ["Wages (Box 1)", "Federal Income Tax Withheld (Box 2)"]

/-- The missing-field computation of src/app.py:126; the engine emits the
`st.warning` missing-fields notice exactly when this list is non-empty. -/
def missingFields (d : Fields) : List String :=
  requiredFields.filter (fun f => falsy (pyGet d f))

/-- The variable `income` at src/app.py:131. -/
def incomeOf (d : Fields) : ℚ := safe_float (pyGet d "Wages (Box 1)")

/-- The variable `withheld` at src/app.py:132. -/
def withheldOf (d : Fields) : ℚ :=
  safe_float (pyGet d "Federal Income Tax Withheld (Box 2)")

/-- The variable `std_deduction` after the `+= additional_deductions` of src/app.py:123. -/
def deductionOf (status : String) (addl : ℚ) : ℚ :=
  standardDeduction status + addl

/-- The assignment `taxable_income = max(0, income - std_deduction)` (src/app.py:133). -/
def taxableOf (d : Fields) (status : String) (addl : ℚ) : ℚ :=
  max 0 (incomeOf d - deductionOf status addl)

/-- The value `tax = max(0, tax)` after the bracket schedule (src/app.py:137-146). -/
def taxOf (d : Fields) (status : String) (addl : ℚ) : ℚ :=
  max 0 (bracketTax (taxableOf d status addl))

/-- The assignment `refund_or_due = round(withheld - tax, 2)` (src/app.py:147). -/
def refundOrDueOf (d : Fields) (status : String) (addl : ℚ) : ℚ :=
  roundTo2 (withheldOf d - taxOf d status addl)

/-- The result dictionary of `compute_tax_summary` (src/app.py:150-162). -/
structure TaxSummary where
  employeeName : String
  employerName : String
  filingYear : String
  filingStatus : String
  totalIncome : ℚ
  stdDeduction : ℚ
  taxableIncome : ℚ
  estimatedTax : ℚ
  taxWithheld : ℚ
  refundOrDue : ℚ
  statusMessage : String
deriving DecidableEq, Repr

/-- The function `compute_tax_summary` (src/app.py:101-166).  The `try` body is total in
this value domain, so the `except` branch returning the empty dict is unreachable;
`Option.none` models that empty-failure result. -/
def compute_tax_summary (d : Fields) (status : String) (addl : ℚ) :
    Option TaxSummary :=
  some
    { employeeName := sanitize_string (pyGetD d "Employee Name" (PyVal.str ""))
      employerName := sanitize_string (pyGetD d "Employer Name" (PyVal.str ""))
      filingYear :=
        sanitize_string (PyVal.str (pyStr (pyGetD d "Filing Year" (PyVal.str ""))))
      filingStatus := formatStatus status
      totalIncome := roundTo2 (incomeOf d)
      stdDeduction := roundTo2 (deductionOf status addl)
      taxableIncome := roundTo2 (taxableOf d status addl)
      estimatedTax := roundTo2 (taxOf d status addl)
      taxWithheld := roundTo2 (withheldOf d)
      refundOrDue := refundOrDueOf d status addl
      statusMessage :=
        if refundOrDueOf d status addl > 0 then "You will receive a refund."
        else "You owe additional taxes." }

/-- Observable outcome of one `requests.post` to the LLM endpoint together
with response decoding: a 200 reply whose message content is `content`, a
non-200 HTTP status with its body text, or a raised transport exception
(timeout, connection failure) carrying its message. -/
inductive LLMOutcome where
  | reply (content : String)
  | httpError (status : ℕ) (body : String)
  | exn (msg : String)

/-- The signal `extract_fields_from_text` surfaces alongside its mapping:
`st.success` on parse, `st.warning` on decode failure or missing payload,
`st.error` on a non-200 API status. -/
inductive ExtractSignal where
  | success
  | decodeError
  | noJsonFound
  | apiError (status : ℕ) (body : String)
deriving DecidableEq, Repr

/-- The search `re.search(r'\x7b.*?\x7d', reply, re.DOTALL)`: the match starts at the
first left brace and extends to the nearest following right brace
(leftmost, then shortest — non-greedy); `Option.none` when no left brace
has a right brace after it. -/
def braceSpan (l : List Char) : Option (List Char) :=
  let t := l.dropWhile (fun c => c != lbrace)
  if t = [] then Option.none
  else if t.tail.any (fun c => c == rbrace) then
    some (lbrace :: t.tail.takeWhile (fun c => c != rbrace) ++ [rbrace])
  else Option.none

/-- The function `extract_fields_from_text` (src/app.py:36-92), parameterised by the
strict JSON decoder (`json.loads`, returning `Option.none` on
`JSONDecodeError`) and the transport outcome.  The `requests.post` at
src/app.py:66-71 is not wrapped in `try`, so a transport exception
propagates (`Except.error`). -/
def extract_fields_from_text (decode : String → Option Fields)
    (o : LLMOutcome) : Except String (Fields × ExtractSignal) :=
  match o with
  | LLMOutcome.exn m => Except.error m
  | LLMOutcome.httpError status body =>
      Except.ok ([], ExtractSignal.apiError status body)
  | LLMOutcome.reply content =>
      match braceSpan content.data with
      | Option.none => Except.ok ([], ExtractSignal.noJsonFound)
      | some span =>
          match decode (String.mk span) with
          | Option.none => Except.ok ([], ExtractSignal.decodeError)
          | some m => Except.ok (m, ExtractSignal.success)

/-- The body of `assistant_respond_with_llm`'s `try` block
(src/app.py:203-209): raises on transport failure, otherwise returns the
reply content or a formatted HTTP-error string. -/
def assistantRespondBody (o : LLMOutcome) : Except String String :=
  match o with
  | LLMOutcome.exn m => Except.error m
  | LLMOutcome.httpError status body =>
      Except.ok ("❌ Error: " ++ toString status ++ " - " ++ body)
  | LLMOutcome.reply content => Except.ok content

/-- The function `assistant_respond_with_llm` (src/app.py:193-211): the `except` clause
converts any raised transport error into a warning string. -/
def assistant_respond_with_llm (o : LLMOutcome) : String :=
  match assistantRespondBody o with
  | Except.error m => "⚠️ Failed to reach the assistant: " ++ m
  | Except.ok r => r

/-- The body of `tax_qa_assistant_respond`'s `try` block (src/app.py:237-243). -/
def taxQaBody (o : LLMOutcome) : Except String String :=
  match o with
  | LLMOutcome.exn m => Except.error m
  | LLMOutcome.httpError status body =>
      Except.ok ("❌ Error: " ++ toString status ++ " - " ++ body)
  | LLMOutcome.reply content => Except.ok content

/-- The function `tax_qa_assistant_respond` (src/app.py:214-245): the `except` clause
converts any raised transport error into a warning string. -/
def tax_qa_assistant_respond (o : LLMOutcome) : String :=
  match taxQaBody o with
  | Except.error m => "⚠️ Failed to answer: " ++ m
  | Except.ok r => r

/-! ### Helper lemmas -/

theorem floatOfCleaned_nonneg (l : List Char) (q : ℚ)
    (h : floatOfCleaned l = some q) : 0 ≤ q := by
  unfold floatOfCleaned at h
  split at h
  · rw [Option.some.injEq] at h
    subst h
    positivity
  · exact absurd h (by simp)

theorem safe_float_str_eval (s : String) (a b k : ℕ)
    (hcond : (List.count '.' (cleanNumeric s) ≤ 1 &&
      (cleanNumeric s).any fun c => c.isDigit) = true)
    (ha : digitsVal ((cleanNumeric s).takeWhile (fun c => c != '.')) = a)
    (hb : digitsVal (((cleanNumeric s).dropWhile (fun c => c != '.')).drop 1) = b)
    (hk : (((cleanNumeric s).dropWhile (fun c => c != '.')).drop 1).length = k) :
    safe_float (PyVal.str s) = (a : ℚ) + (b : ℚ) / (10 : ℚ) ^ k := by
  show (floatOfCleaned (cleanNumeric s)).getD 0 = _
  unfold floatOfCleaned
  rw [if_pos hcond]
  simp only [Option.getD_some]
  rw [ha, hb, hk]

theorem safe_float_of_falsy (v : PyVal) (h : falsy v = true) : safe_float v = 0 := by
  cases v with
  | str s =>
      have hs : s = "" := by simpa [falsy] using h
      subst hs
      rfl
  | num q =>
      have hq : q = 0 := by simpa [falsy] using h
      subst hq
      rfl
  | bool b =>
      have hb : b = false := by simpa [falsy] using h
      subst hb
      rfl
  | none => rfl

theorem roundTo2_nonneg (q : ℚ) (h : 0 ≤ q) : 0 ≤ roundTo2 q := by
  have h100 : (0 : ℚ) ≤ q * 100 := by positivity
  have hf : (0 : ℤ) ≤ ⌊q * 100⌋ := Int.floor_nonneg.mpr h100
  have hf1 : (0 : ℤ) ≤ ⌊q * 100⌋ + 1 := by linarith
  simp only [roundTo2, roundHalfEven]
  split_ifs <;>
    first
    | exact div_nonneg (by exact_mod_cast hf) (by norm_num)
    | exact div_nonneg (by exact_mod_cast hf1) (by norm_num)

theorem dropWhile_cover (p : Char → Bool) :
    ∀ l t : List Char, (∀ a ∈ l, p a = true) →
      List.dropWhile p (l ++ t) = List.dropWhile p t := by
  intro l
  induction l with
  | nil => intro t _; rfl
  | cons a l ih =>
      intro t h
      have ha : p a = true := h a (by simp)
      simp only [List.cons_append, List.dropWhile_cons, ha, if_true]
      exact ih t (fun b hb => h b (by simp [hb]))

theorem takeWhile_cover (p : Char → Bool) :
    ∀ l t : List Char, (∀ a ∈ l, p a = true) →
      List.takeWhile p (l ++ t) = l ++ List.takeWhile p t := by
  intro l
  induction l with
  | nil => intro t _; rfl
  | cons a l ih =>
      intro t h
      have ha : p a = true := h a (by simp)
      simp only [List.cons_append, List.takeWhile_cons, ha, if_true]
      rw [ih t (fun b hb => h b (by simp [hb]))]

theorem mem_of_mem_replaceChar {c pat : Char} {rep l : List Char}
    (h : c ∈ replaceChar pat rep l) : c ∈ rep ∨ (c ∈ l ∧ c ≠ pat) := by
  unfold replaceChar at h
  rw [List.mem_flatMap] at h
  obtain ⟨a, ha, hc⟩ := h
  by_cases hap : a = pat
  · rw [if_pos hap] at hc
    exact Or.inl hc
  · rw [if_neg hap] at hc
    have : c = a := by simpa using hc
    subst this
    exact Or.inr ⟨ha, hap⟩

theorem not_mem_replaceChar_self {c : Char} {rep l : List Char}
    (h : c ∉ rep) : c ∉ replaceChar c rep l := by
  intro hmem
  rcases mem_of_mem_replaceChar hmem with h1 | h2
  · exact h h1
  · exact h2.2 rfl

theorem not_mem_replaceChar_of {c pat : Char} {rep l : List Char}
    (h1 : c ∉ rep) (h2 : c ∉ l) : c ∉ replaceChar pat rep l := by
  intro hmem
  rcases mem_of_mem_replaceChar hmem with hl | hr
  · exact h1 hl
  · exact h2 hr.1

theorem status_message_iff (r : ℚ) :
    (0 < r ↔
      (if r > 0 then "You will receive a refund."
       else "You owe additional taxes.") = "You will receive a refund.") ∧
    (r ≤ 0 →
      (if r > 0 then "You will receive a refund."
       else "You owe additional taxes.") = "You owe additional taxes.") := by
  by_cases hpos : r > 0
  · rw [if_pos hpos]
    exact ⟨⟨fun _ => rfl, fun _ => hpos⟩, fun hle => absurd hpos (not_lt.mpr hle)⟩
  · rw [if_neg hpos]
    exact ⟨⟨fun h0 => absurd h0 hpos, fun hmsg => absurd hmsg (by decide)⟩, fun _ => rfl⟩

/-! ### Claim theorems -/

/-- C1: for fields Wages (Box 1) = "50,000" and Federal Income Tax Withheld
(Box 2) = "6000", filing status "single", additional deductions 0,
`compute_tax_summary` yields Total Income 50000.00, combined deduction
13850.00, Taxable Income 36150.00, Estimated Tax Owed 4118.00,
Refund or Amount Due 1882.00, and the refund status message. -/
theorem compute_summary_single_50000 :
    compute_tax_summary
      [("Wages (Box 1)", PyVal.str "50,000"),
       ("Federal Income Tax Withheld (Box 2)", PyVal.str "6000")] "single" 0 =
      some
        { employeeName := ""
          employerName := ""
          filingYear := ""
          filingStatus := "Single"
          totalIncome := 50000
          stdDeduction := 13850
          taxableIncome := 36150
          estimatedTax := 4118
          taxWithheld := 6000
          refundOrDue := 1882
          statusMessage := "You will receive a refund." } := by
  have hw : pyGet
      [("Wages (Box 1)", PyVal.str "50,000"),
       ("Federal Income Tax Withheld (Box 2)", PyVal.str "6000")] "Wages (Box 1)" =
      PyVal.str "50,000" := by decide
  have hf : pyGet
      [("Wages (Box 1)", PyVal.str "50,000"),
       ("Federal Income Tax Withheld (Box 2)", PyVal.str "6000")]
      "Federal Income Tax Withheld (Box 2)" = PyVal.str "6000" := by decide
  have hsd : standardDeduction "single" = 13850 := by decide
  have hinc : incomeOf
      [("Wages (Box 1)", PyVal.str "50,000"),
       ("Federal Income Tax Withheld (Box 2)", PyVal.str "6000")] = 50000 := by
    simp only [incomeOf, hw]
    rw [safe_float_str_eval "50,000" 50000 0 0 (by decide) (by decide) (by decide)
      (by decide)]
    norm_num
  have hwh : withheldOf
      [("Wages (Box 1)", PyVal.str "50,000"),
       ("Federal Income Tax Withheld (Box 2)", PyVal.str "6000")] = 6000 := by
    simp only [withheldOf, hf]
    rw [safe_float_str_eval "6000" 6000 0 0 (by decide) (by decide) (by decide)
      (by decide)]
    norm_num
  have hded : deductionOf "single" (0 : ℚ) = 13850 := by
    simp only [deductionOf, hsd]
    norm_num
  have htaxable : taxableOf
      [("Wages (Box 1)", PyVal.str "50,000"),
       ("Federal Income Tax Withheld (Box 2)", PyVal.str "6000")] "single" 0 = 36150 := by
    simp only [taxableOf, hinc, hded]
    norm_num [max_def]
  have htax : taxOf
      [("Wages (Box 1)", PyVal.str "50,000"),
       ("Federal Income Tax Withheld (Box 2)", PyVal.str "6000")] "single" 0 = 4118 := by
    simp only [taxOf, htaxable]
    norm_num [bracketTax, max_def]
  have hrod : refundOrDueOf
      [("Wages (Box 1)", PyVal.str "50,000"),
       ("Federal Income Tax Withheld (Box 2)", PyVal.str "6000")] "single" 0 = 1882 := by
    simp only [refundOrDueOf, hwh, htax]
    norm_num [roundTo2, roundHalfEven]
  simp only [compute_tax_summary, Option.some.injEq, TaxSummary.mk.injEq]
  refine ⟨by decide, by decide, by decide, by decide, ?_, ?_, ?_, ?_, ?_, hrod, ?_⟩
  · rw [hinc]; norm_num [roundTo2, roundHalfEven]
  · rw [hded]; norm_num [roundTo2, roundHalfEven]
  · rw [htaxable]; norm_num [roundTo2, roundHalfEven]
  · rw [htax]; norm_num [roundTo2, roundHalfEven]
  · rw [hwh]; norm_num [roundTo2, roundHalfEven]
  · rw [hrod, if_pos (by norm_num : (1882 : ℚ) > 0)]

/-- C8: the bracket schedule is continuous at its boundaries: taxable income
exactly 11000 gives tax 1100.00, exactly 44725 gives 5147.00, exactly 95375
gives 16290.00 (after the 2-decimal rounding applied to the result), both
for the raw schedule and through `compute_tax_summary` at incomes whose
taxable part lands exactly on each boundary. -/
theorem bracket_boundaries :
    roundTo2 (max 0 (bracketTax 11000)) = 1100 ∧
    roundTo2 (max 0 (bracketTax 44725)) = 5147 ∧
    roundTo2 (max 0 (bracketTax 95375)) = 16290 ∧
    (compute_tax_summary [("Wages (Box 1)", PyVal.str "24850")] "single" 0).map
        TaxSummary.estimatedTax = some 1100 ∧
    (compute_tax_summary [("Wages (Box 1)", PyVal.str "58575")] "single" 0).map
        TaxSummary.estimatedTax = some 5147 ∧
    (compute_tax_summary [("Wages (Box 1)", PyVal.str "109225")] "single" 0).map
        TaxSummary.estimatedTax = some 16290 := by
  have hsd : standardDeduction "single" = 13850 := by decide
  refine ⟨by norm_num [bracketTax, max_def, roundTo2, roundHalfEven],
    by norm_num [bracketTax, max_def, roundTo2, roundHalfEven],
    by norm_num [bracketTax, max_def, roundTo2, roundHalfEven], ?_, ?_, ?_⟩
  · have hg : pyGet [("Wages (Box 1)", PyVal.str "24850")] "Wages (Box 1)" =
        PyVal.str "24850" := by decide
    have htax : taxOf [("Wages (Box 1)", PyVal.str "24850")] "single" 0 = 1100 := by
      simp only [taxOf, taxableOf, deductionOf, incomeOf, hg, hsd]
      rw [safe_float_str_eval "24850" 24850 0 0 (by decide) (by decide) (by decide)
        (by decide)]
      norm_num [bracketTax, max_def]
    show some (roundTo2 (taxOf [("Wages (Box 1)", PyVal.str "24850")] "single" 0)) =
      some 1100
    rw [htax]
    norm_num [roundTo2, roundHalfEven]
  · have hg : pyGet [("Wages (Box 1)", PyVal.str "58575")] "Wages (Box 1)" =
        PyVal.str "58575" := by decide
    have htax : taxOf [("Wages (Box 1)", PyVal.str "58575")] "single" 0 = 5147 := by
      simp only [taxOf, taxableOf, deductionOf, incomeOf, hg, hsd]
      rw [safe_float_str_eval "58575" 58575 0 0 (by decide) (by decide) (by decide)
        (by decide)]
      norm_num [bracketTax, max_def]
    show some (roundTo2 (taxOf [("Wages (Box 1)", PyVal.str "58575")] "single" 0)) =
      some 5147
    rw [htax]
    norm_num [roundTo2, roundHalfEven]
  · have hg : pyGet [("Wages (Box 1)", PyVal.str "109225")] "Wages (Box 1)" =
        PyVal.str "109225" := by decide
    have htax : taxOf [("Wages (Box 1)", PyVal.str "109225")] "single" 0 = 16290 := by
      simp only [taxOf, taxableOf, deductionOf, incomeOf, hg, hsd]
      rw [safe_float_str_eval "109225" 109225 0 0 (by decide) (by decide) (by decide)
        (by decide)]
      norm_num [bracketTax, max_def]
    show some (roundTo2 (taxOf [("Wages (Box 1)", PyVal.str "109225")] "single" 0)) =
      some 16290
    rw [htax]
    norm_num [roundTo2, roundHalfEven]

/-- C4 counterexample: in the field-extraction path the `requests.post` call
is not wrapped in `try`/`except`, so a transport error propagates to the
caller as a raised fault instead of being converted to a warning string. -/
theorem extraction_transport_error_propagates :
    extract_fields_from_text (fun _ => Option.none)
        (LLMOutcome.exn "Connection timed out") =
      Except.error "Connection timed out" := rfl

/-- C4 (amended): in both chat paths a transport error is caught and
converted to a formatted warning string, but in the field-extraction path it
propagates to the caller as a raised fault. -/
theorem transport_error_handling (m : String) :
    assistant_respond_with_llm (LLMOutcome.exn m) =
      "⚠️ Failed to reach the assistant: " ++ m ∧
    tax_qa_assistant_respond (LLMOutcome.exn m) =
      "⚠️ Failed to answer: " ++ m ∧
    (∀ decode, extract_fields_from_text decode (LLMOutcome.exn m) =
      Except.error m) :=
  ⟨rfl, rfl, fun _ => rfl⟩

/-- C2: `safe_float` on a string strips every character that is not a digit
or the decimal point and parses the remainder, returning 0.0 when the string
strips to empty or parsing fails; "$45,230.10" yields 45230.10 and "abc",
"" and `None` each yield exactly 0.0; an already-numeric input is coerced
directly.  Totality is inherent: `safe_float` is a Lean function. -/
theorem safe_float_contract :
    (∀ s : String,
      safe_float (PyVal.str s) = (floatOfCleaned (cleanNumeric s)).getD 0) ∧
    (∀ s : String, cleanNumeric s = [] → safe_float (PyVal.str s) = 0) ∧
    (∀ s : String, floatOfCleaned (cleanNumeric s) = Option.none →
      safe_float (PyVal.str s) = 0) ∧
    safe_float (PyVal.str "$45,230.10") = 45230.10 ∧
    safe_float (PyVal.str "abc") = 0 ∧
    safe_float (PyVal.str "") = 0 ∧
    safe_float PyVal.none = 0 ∧
    (∀ q : ℚ, safe_float (PyVal.num q) = q) := by
  refine ⟨fun s => rfl, ?_, ?_,
    by
      rw [safe_float_str_eval "$45,230.10" 45230 10 2 (by decide) (by decide) (by decide)
        (by decide)]
      norm_num,
    rfl, rfl, rfl, fun q => rfl⟩
  · intro s h
    show (floatOfCleaned (cleanNumeric s)).getD 0 = 0
    rw [h]
    rfl
  · intro s h
    show (floatOfCleaned (cleanNumeric s)).getD 0 = 0
    rw [h]
    rfl

/-- C2 witness: the strip-to-empty and parse-failure hypotheses are realised
at "abc" and "1.2.3". -/
theorem safe_float_contract_witness :
    cleanNumeric "abc" = [] ∧ safe_float (PyVal.str "abc") = 0 ∧
    floatOfCleaned (cleanNumeric "1.2.3") = Option.none ∧
    safe_float (PyVal.str "1.2.3") = 0 :=
  ⟨by decide, safe_float_contract.2.1 "abc" (by decide),
   by decide, safe_float_contract.2.2.1 "1.2.3" (by decide)⟩

/-- C10: `safe_float` on any string is non-negative, since the character
filter discards a minus sign; in particular "-500" coerces to 500.0. -/
theorem safe_float_string_nonneg :
    (∀ s : String, 0 ≤ safe_float (PyVal.str s)) ∧
    safe_float (PyVal.str "-500") = 500 := by
  refine ⟨?_,
    by
      rw [safe_float_str_eval "-500" 500 0 0 (by decide) (by decide) (by decide)
        (by decide)]
      norm_num⟩
  intro s
  show 0 ≤ (floatOfCleaned (cleanNumeric s)).getD 0
  cases h : floatOfCleaned (cleanNumeric s) with
  | none => simp
  | some q => simpa using floatOfCleaned_nonneg _ _ h

/-- C5: every summary produced by `compute_tax_summary` satisfies the
invariant Taxable Income = max(0, Total Income − (Standard Deduction +
Additional Deductions)) — exactly for the computed value, and up to the
2-decimal rounding of §4.3 step 8 for the stored field — and Estimated Tax
Owed is non-negative (before and after rounding). -/
theorem taxable_income_invariant (d : Fields) (status : String) (addl : ℚ)
    (s : TaxSummary) (h : compute_tax_summary d status addl = some s) :
    taxableOf d status addl =
      max 0 (incomeOf d - (standardDeduction status + addl)) ∧
    s.taxableIncome =
      roundTo2 (max 0 (incomeOf d - (standardDeduction status + addl))) ∧
    0 ≤ taxOf d status addl ∧
    0 ≤ s.estimatedTax := by
  have hs := Option.some.inj h
  subst hs
  exact ⟨rfl, rfl, le_max_left 0 _, roundTo2_nonneg _ (le_max_left 0 _)⟩

/-- C5 witness: the invariant instantiated at the empty field mapping. -/
theorem taxable_income_invariant_witness :
    taxableOf [] "single" 0 =
      max 0 (incomeOf [] - (standardDeduction "single" + 0)) ∧
    0 ≤ taxOf [] "single" 0 :=
  ⟨(taxable_income_invariant [] "single" 0 _ rfl).1,
   (taxable_income_invariant [] "single" 0 _ rfl).2.2.1⟩

/-- C6: in every summary produced by `compute_tax_summary`, Refund or Amount
Due equals round(Tax Withheld − Estimated Tax Owed, 2), the refund wording
appears exactly when it is positive (0 counts as owe), and it can be
negative. -/
theorem refund_or_due_spec (d : Fields) (status : String) (addl : ℚ)
    (s : TaxSummary) (h : compute_tax_summary d status addl = some s) :
    s.refundOrDue = roundTo2 (withheldOf d - taxOf d status addl) ∧
    (0 < s.refundOrDue ↔ s.statusMessage = "You will receive a refund.") ∧
    (s.refundOrDue ≤ 0 → s.statusMessage = "You owe additional taxes.") ∧
    ∃ d' st' a' s', compute_tax_summary d' st' a' = some s' ∧
      s'.refundOrDue < 0 := by
  have hs := Option.some.inj h
  subst hs
  refine ⟨rfl, (status_message_iff _).1, (status_message_iff _).2, ?_⟩
  refine ⟨[("Wages (Box 1)", PyVal.str "50000")], "single", 0, _, rfl, ?_⟩
  show refundOrDueOf [("Wages (Box 1)", PyVal.str "50000")] "single" 0 < 0
  have hg : pyGet [("Wages (Box 1)", PyVal.str "50000")] "Wages (Box 1)" =
      PyVal.str "50000" := by decide
  have hg2 : pyGet [("Wages (Box 1)", PyVal.str "50000")]
      "Federal Income Tax Withheld (Box 2)" = PyVal.none := by decide
  have hsd : standardDeduction "single" = 13850 := by decide
  have htax : taxOf [("Wages (Box 1)", PyVal.str "50000")] "single" 0 = 4118 := by
    simp only [taxOf, taxableOf, deductionOf, incomeOf, hg, hsd]
    rw [safe_float_str_eval "50000" 50000 0 0 (by decide) (by decide) (by decide)
      (by decide)]
    norm_num [bracketTax, max_def]
  have hwh : withheldOf [("Wages (Box 1)", PyVal.str "50000")] = 0 := by
    simp only [withheldOf, hg2, safe_float]
  simp only [refundOrDueOf, hwh, htax]
  norm_num [roundTo2, roundHalfEven]

/-- C6 witness: at a withheld-only field mapping the refund/owe boundary
policy is realised. -/
theorem refund_or_due_spec_witness :
    ∃ s, compute_tax_summary
        [("Federal Income Tax Withheld (Box 2)", PyVal.str "100")] "single" 0 =
        some s ∧
      (0 < s.refundOrDue ↔ s.statusMessage = "You will receive a refund.") :=
  ⟨_, rfl,
   (refund_or_due_spec [("Federal Income Tax Withheld (Box 2)", PyVal.str "100")]
     "single" 0 _ rfl).2.1⟩

/-- C7: whenever a required field (Wages, Federal Income Tax Withheld) is
absent or falsy, the missing-fields warning fires and `compute_tax_summary`
still returns a summary (not the empty-failure result) with 0 substituted,
so that Total Income is 0 when Wages is missing. -/
theorem missing_fields_warning (d : Fields) (status : String) (addl : ℚ)
    (h : falsy (pyGet d "Wages (Box 1)") = true ∨
      falsy (pyGet d "Federal Income Tax Withheld (Box 2)") = true) :
    missingFields d ≠ [] ∧
    ∃ s, compute_tax_summary d status addl = some s ∧
      (falsy (pyGet d "Wages (Box 1)") = true → s.totalIncome = 0) := by
  constructor
  · intro hnil
    rcases h with h1 | h2
    · simp [missingFields, requiredFields, h1] at hnil
    · cases hfw : falsy (pyGet d "Wages (Box 1)") <;>
        simp [missingFields, requiredFields, hfw, h2] at hnil
  · refine ⟨_, rfl, fun hw => ?_⟩
    show roundTo2 (incomeOf d) = 0
    have h0 : incomeOf d = 0 := safe_float_of_falsy _ hw
    rw [h0]
    norm_num [roundTo2, roundHalfEven]

/-- C7 witness: the empty field mapping is missing both required fields. -/
theorem missing_fields_warning_witness :
    missingFields [] ≠ [] ∧
    ∃ s, compute_tax_summary [] "single" 0 = some s ∧
      (falsy (pyGet [] "Wages (Box 1)") = true → s.totalIncome = 0) :=
  missing_fields_warning [] "single" 0 (Or.inl (by decide))

/-- C3: the extraction parser selects the leftmost-shortest brace span —
on two sibling non-nested objects only the first — returns empty with the
"no structured data found" signal when no span exists (in particular when
there is no left brace at all), returns empty with the decode-error signal
when the span fails strict decoding, returns the decoded mapping on
success, and the parsing step never raises. -/
theorem parse_extracted_fields_contract (decode : String → Option Fields) :
    (∀ p x q y r : List Char, lbrace ∉ p → rbrace ∉ x →
      braceSpan (p ++ lbrace :: x ++ rbrace :: q ++ lbrace :: y ++ rbrace :: r) =
        some (lbrace :: x ++ [rbrace])) ∧
    (∀ content : String, lbrace ∉ content.data →
      braceSpan content.data = Option.none) ∧
    (∀ content : String, braceSpan content.data = Option.none →
      extract_fields_from_text decode (LLMOutcome.reply content) =
        Except.ok ([], ExtractSignal.noJsonFound)) ∧
    (∀ (content : String) (span : List Char), braceSpan content.data = some span →
      decode (String.mk span) = Option.none →
      extract_fields_from_text decode (LLMOutcome.reply content) =
        Except.ok ([], ExtractSignal.decodeError)) ∧
    (∀ (content : String) (span : List Char) (m : Fields),
      braceSpan content.data = some span → decode (String.mk span) = some m →
      extract_fields_from_text decode (LLMOutcome.reply content) =
        Except.ok (m, ExtractSignal.success)) ∧
    (∀ content : String, ∃ v,
      extract_fields_from_text decode (LLMOutcome.reply content) = Except.ok v) := by
  refine ⟨?_, ?_, ?_, ?_, ?_, ?_⟩
  · intro p x q y r h1 h2
    have hp : ∀ a ∈ p, (a != lbrace) = true := fun a ha => by
      simp only [bne_iff_ne, ne_eq]
      exact ne_of_mem_of_not_mem ha h1
    have hx : ∀ a ∈ x, (a != rbrace) = true := fun a ha => by
      simp only [bne_iff_ne, ne_eq]
      exact ne_of_mem_of_not_mem ha h2
    have hshape : p ++ lbrace :: x ++ rbrace :: q ++ lbrace :: y ++ rbrace :: r =
        p ++ (lbrace :: (x ++ rbrace :: (q ++ lbrace :: (y ++ rbrace :: r)))) := by
      simp [List.cons_append, List.append_assoc]
    have hd : List.dropWhile (fun c => c != lbrace)
        (p ++ (lbrace :: (x ++ rbrace :: (q ++ lbrace :: (y ++ rbrace :: r))))) =
        lbrace :: (x ++ rbrace :: (q ++ lbrace :: (y ++ rbrace :: r))) := by
      rw [dropWhile_cover _ _ _ hp, List.dropWhile_cons]
      simp
    have ht : List.takeWhile (fun c => c != rbrace)
        (x ++ rbrace :: (q ++ lbrace :: (y ++ rbrace :: r))) = x := by
      rw [takeWhile_cover _ _ _ hx, List.takeWhile_cons]
      simp
    rw [hshape]
    simp only [braceSpan, hd, List.tail_cons, ht]
    rw [if_neg (by simp), if_pos (by simp)]
  · intro content h
    have hp : ∀ a ∈ content.data, (a != lbrace) = true := fun a ha => by
      simp only [bne_iff_ne, ne_eq]
      exact ne_of_mem_of_not_mem ha h
    have hd : List.dropWhile (fun c => c != lbrace) content.data = [] := by
      have h0 := dropWhile_cover (fun c => c != lbrace) content.data [] hp
      rw [List.append_nil] at h0
      exact h0
    simp [braceSpan, hd]
  · intro content h
    simp [extract_fields_from_text, h]
  · intro content span h1 h2
    simp [extract_fields_from_text, h1, h2]
  · intro content span m h1 h2
    simp [extract_fields_from_text, h1, h2]
  · intro content
    cases hb : braceSpan content.data with
    | none =>
        exact ⟨([], ExtractSignal.noJsonFound), by
          simp [extract_fields_from_text, hb]⟩
    | some span =>
        cases hd : decode (String.mk span) with
        | none =>
            exact ⟨([], ExtractSignal.decodeError), by
              simp [extract_fields_from_text, hb, hd]⟩
        | some m =>
            exact ⟨(m, ExtractSignal.success), by
              simp [extract_fields_from_text, hb, hd]⟩

/-- C3 witness: the sibling-objects, no-payload, decode-failure and success
hypotheses realised at concrete inputs. -/
theorem parse_extracted_fields_contract_witness :
    braceSpan ("ab".data ++ lbrace :: "A".data ++ rbrace :: "cd".data ++
        lbrace :: "B".data ++ rbrace :: "e".data) =
      some (lbrace :: "A".data ++ [rbrace]) ∧
    extract_fields_from_text (fun _ => some [("k", PyVal.num 1)])
        (LLMOutcome.reply "no payload here") =
      Except.ok ([], ExtractSignal.noJsonFound) ∧
    extract_fields_from_text (fun _ => Option.none)
        (LLMOutcome.reply (String.mk [lbrace, rbrace])) =
      Except.ok ([], ExtractSignal.decodeError) ∧
    extract_fields_from_text (fun _ => some [("k", PyVal.num 1)])
        (LLMOutcome.reply (String.mk [lbrace, rbrace])) =
      Except.ok ([("k", PyVal.num 1)], ExtractSignal.success) :=
  ⟨(parse_extracted_fields_contract (fun _ => Option.none)).1 "ab".data "A".data
      "cd".data "B".data "e".data (by decide) (by decide),
   (parse_extracted_fields_contract (fun _ => some [("k", PyVal.num 1)])).2.2.1
      "no payload here" (by decide),
   (parse_extracted_fields_contract (fun _ => Option.none)).2.2.2.1
      (String.mk [lbrace, rbrace]) (lbrace :: [] ++ [rbrace]) (by decide) rfl,
   (parse_extracted_fields_contract (fun _ => some [("k", PyVal.num 1)])).2.2.2.2.1
      (String.mk [lbrace, rbrace]) (lbrace :: [] ++ [rbrace]) [("k", PyVal.num 1)]
      (by decide) rfl⟩

/-- C9: `sanitize_string` returns the empty string on every non-string
value, trims and HTML-escapes strings, and its output never contains a
literal angle bracket. -/
theorem sanitize_string_contract :
    sanitize_string PyVal.none = "" ∧
    (∀ q : ℚ, sanitize_string (PyVal.num q) = "") ∧
    (∀ b : Bool, sanitize_string (PyVal.bool b) = "") ∧
    (∀ s : String,
      sanitize_string (PyVal.str s) = String.mk (html_escape (pyStrip s.data))) ∧
    (∀ s : String, '<' ∉ (sanitize_string (PyVal.str s)).data ∧
      '>' ∉ (sanitize_string (PyVal.str s)).data) := by
  refine ⟨rfl, fun q => rfl, fun b => rfl, fun s => rfl, fun s => ⟨?_, ?_⟩⟩
  · show '<' ∉ html_escape (pyStrip s.data)
    unfold html_escape
    apply not_mem_replaceChar_of (by decide)
    apply not_mem_replaceChar_of (by decide)
    apply not_mem_replaceChar_of (by decide)
    exact not_mem_replaceChar_self (by decide)
  · show '>' ∉ html_escape (pyStrip s.data)
    unfold html_escape
    apply not_mem_replaceChar_of (by decide)
    apply not_mem_replaceChar_of (by decide)
    exact not_mem_replaceChar_self (by decide)

/-- C9 witness: the angle-bracket elimination realised at a script tag. -/
theorem sanitize_string_contract_witness :
    '<' ∉ (sanitize_string (PyVal.str "<script>")).data ∧
    '>' ∉ (sanitize_string (PyVal.str "<script>")).data :=
  sanitize_string_contract.2.2.2.2 "<script>"

end TaxDash
